import Mathlib

/-!
Shallow embedding of the `resize-image` library (`src/index.js`).

JavaScript numbers are modelled as exact rationals (`ℚ`); `Math.round`
is JavaScript round-half-up, which coincides with Mathlib's `round`
(`round x = ⌊x + 1/2⌋`).  Absent (`undefined`) values are modelled with
`Option`.  The DOM / Worker side effects are modelled as explicit state
passing and operation traces.
-/

namespace ResizeImage

/-- Helper for `strIncludes`: `headMatch pat s` is true when `pat` is an
initial segment of `s`. -/
def headMatch : List Char → List Char → Bool
  | [], _ => true
  | _ :: _, [] => false
  | a :: as, b :: bs => a == b && headMatch as bs

/-- Helper for `strIncludes`: `hasSub pat s` is true when `pat` occurs
contiguously somewhere in `s`. -/
def hasSub (pat : List Char) : List Char → Bool
  | [] => headMatch pat []
  | b :: bs => headMatch pat (b :: bs) || hasSub pat bs

/-- JavaScript `s.includes(pat)`. -/
def strIncludes (s pat : String) : Bool :=
  hasSub pat.data s.data

/-- ASCII case folding of one character (JavaScript `toLowerCase` restricted
to ASCII, which covers every string the library compares against). -/
def charLower (c : Char) : Char :=
  if 65 ≤ c.toNat ∧ c.toNat ≤ 90 then Char.ofNat (c.toNat + 32) else c

/-- JavaScript `s.toLowerCase()` (ASCII). -/
def jsToLower (s : String) : String :=
  ⟨s.data.map charLower⟩

/-- JavaScript truthiness of an optional string: `undefined` and the empty
string are falsy, every other string is truthy. -/
def truthyStr : Option String → Bool
  | some s => !s.isEmpty
  | none => false

/-- `getYGravity` (src/index.js lines 228-238): parses the
north/top/south/bottom directions of a gravity string. -/
def getYGravity : Option String → ℤ
  | some g =>
    let g := jsToLower g
    if strIncludes g "north" || strIncludes g "top" then -1
    else if strIncludes g "south" || strIncludes g "bottom" then 1
    else 0
  | none => 0

/-- `getXGravity` (src/index.js lines 246-256): parses the
east/left/west/right directions of a gravity string. -/
def getXGravity : Option String → ℤ
  | some g =>
    let g := jsToLower g
    if strIncludes g "east" || strIncludes g "left" then -1
    else if strIncludes g "west" || strIncludes g "right" then 1
    else 0
  | none => 0

/-- `parseNumberArg` (src/index.js lines 264-267): an absent or
non-numeric argument (modelled `none`) falls back to the default. -/
def parseNumberArg (n : Option ℚ) (defaultValue : ℚ) : ℚ :=
  match n with
  | some q => q
  | none => defaultValue

/-- `typeSupportsAlpha` (src/index.js lines 275-277).  Note that in
`validateOptions` it is applied to the raw `opts.type`, which may be
`undefined` (`none`); `undefined !== 'image/jpeg'` is `true`. -/
def typeSupportsAlpha (type : Option String) : Bool :=
  type ≠ some "image/jpeg"

/-- The user-supplied options object (`opts` argument of
`resizeImageToBlob`); every key may be absent. -/
structure InOpts where
  type : Option String := none
  width : Option ℚ := none
  height : Option ℚ := none
  quality : Option ℚ := none
  gravity : Option String := none
  fit : Option String := none
  noEnlarge : Bool := false
  smoothen : Bool := false
  background : Option String := none
deriving DecidableEq, Repr

/-- The canonical options object returned by `validateOptions`.  The object
literal in the source (lines 287-298) has no `background` key, so reading
`opts.background` later yields `undefined`; this absent key is modelled by a
`background` field that `validateOptions` always sets to `none`. -/
structure VOpts where
  type : String
  alpha : Bool
  width : ℕ
  height : ℕ
  quality : ℚ
  xGravity : ℤ
  yGravity : ℤ
  fit : String
  noEnlarge : Bool
  smoothen : Bool
  background : Option String
deriving DecidableEq, Repr

/-- `validateOptions` (src/index.js lines 285-299). -/
def validateOptions (opts : InOpts) : VOpts where
  type := if truthyStr opts.type then opts.type.getD "" else "image/jpeg"
  alpha := typeSupportsAlpha opts.type
  width := (round (parseNumberArg opts.width 0)).toNat
  height := (round (parseNumberArg opts.height 0)).toNat
  quality := min (max (parseNumberArg opts.quality 1) 0) 1
  xGravity := getYGravity opts.gravity
  yGravity := getXGravity opts.gravity
  fit := match opts.fit with
    | some f => if 0 < f.length then jsToLower f else "stretch"
    | none => "stretch"
  noEnlarge := opts.noEnlarge
  smoothen := opts.smoothen
  background := none

/-- The object returned by `validateImageFit` (src/index.js lines 390-396):
`imageWidth`/`imageHeight` are the original source dimensions, `cw`/`ch` the
output canvas size, `iw`/`ih` the placed-image size and `ix`/`iy` the
placement offset, all rounded to integers. -/
structure FitG where
  imageWidth : ℕ
  imageHeight : ℕ
  cw : ℤ
  ch : ℤ
  iw : ℤ
  ih : ℤ
  ix : ℤ
  iy : ℤ
deriving DecidableEq, Repr

/-- Lines 324-336 of `validateImageFit`: when a target dimension is zero
(JS falsy) the fit is forced to `"stretch"` and the missing dimension is
derived from the source aspect ratio; `W`/`H` are the source dimensions. -/
def fillZeros (W H cw0 ch0 : ℕ) (fit : String) : ℚ × ℚ × String :=
  if cw0 = 0 ∨ ch0 = 0 then
    if cw0 ≠ 0 then ((cw0 : ℚ), ((cw0 : ℚ) / (W : ℚ)) * (H : ℚ), "stretch")
    else if ch0 ≠ 0 then (((ch0 : ℚ) / (H : ℚ)) * (W : ℚ), (ch0 : ℚ), "stretch")
    else ((W : ℚ), (H : ℚ), "stretch")
  else ((cw0 : ℚ), (ch0 : ℚ), fit)

/-- Lines 340-351 of `validateImageFit`: placed-image size per fit mode
(`iw`/`ih` start at the source dimensions and are scaled; the default
branch is independent axis scaling, i.e. stretch). -/
def fitScale (W H : ℕ) (cw ch : ℚ) (fit : String) : ℚ × ℚ :=
  if fit = "outside" ∨ fit = "cover" then
    ((W : ℚ) * max (cw / (W : ℚ)) (ch / (H : ℚ)),
     (H : ℚ) * max (cw / (W : ℚ)) (ch / (H : ℚ)))
  else if fit = "inside" ∨ fit = "contain" then
    ((W : ℚ) * min (cw / (W : ℚ)) (ch / (H : ℚ)),
     (H : ℚ) * min (cw / (W : ℚ)) (ch / (H : ℚ)))
  else (cw, ch)

/-- Lines 352-355 of `validateImageFit`: the outside/inside fit modes snap
the canvas to the placed-image size. -/
def snapCanvas (fit : String) (cw ch iw ih : ℚ) : ℚ × ℚ :=
  if fit = "outside" ∨ fit = "inside" then (iw, ih) else (cw, ch)

/-- Lines 359-367 of `validateImageFit`: with `noEnlarge`, when the placed
image is larger than the source, everything is shrunk uniformly.  Returns
`(iw, ih, cw, ch)`. -/
def noEnlargeStep (W H : ℕ) (noEnlarge : Bool) (iw ih cw ch : ℚ) :
    ℚ × ℚ × ℚ × ℚ :=
  if noEnlarge then
    if min ((W : ℚ) / iw) ((H : ℚ) / ih) < 1 then
      (iw * min ((W : ℚ) / iw) ((H : ℚ) / ih),
       ih * min ((W : ℚ) / iw) ((H : ℚ) / ih),
       cw * min ((W : ℚ) / iw) ((H : ℚ) / ih),
       ch * min ((W : ℚ) / iw) ((H : ℚ) / ih))
    else (iw, ih, cw, ch)
  else (iw, ih, cw, ch)

/-- Body of `validateImageFit` (src/index.js lines 318-382) without the
final ICO cap check: computes the rounded fit geometry from the source
dimensions `(W, H)` and canonical options. -/
def fitRaw (W H : ℕ) (o : VOpts) : FitG :=
  let z := fillZeros W H o.width o.height o.fit
  let s := fitScale W H z.1 z.2.1 z.2.2
  let c := snapCanvas z.2.2 z.1 z.2.1 s.1 s.2
  let n := noEnlargeStep W H o.noEnlarge s.1 s.2 c.1 c.2
  let ix := (n.2.2.1 - n.1) * (1 / 2) * ((o.xGravity : ℚ) + 1)
  let iy := (n.2.2.2 - n.2.1) * (1 / 2) * ((o.yGravity : ℚ) + 1)
  ⟨W, H, round n.2.2.1, round n.2.2.2, round n.1, round n.2.1, round ix, round iy⟩

/-- `validateImageFit` (src/index.js lines 309-397), with the source
dimensions `(W, H)` standing for `getImageDimensions(img)`. -/
def validateImageFit (W H : ℕ) (o : VOpts) : Except String FitG :=
  if W = 0 ∨ H = 0 then .error "Image dimensions could not be determined"
  else
    let g := fitRaw W H o
    if o.type = "image/vnd.microsoft.icon" ∧ (256 < g.cw ∨ 256 < g.ch) then
      .error "Exceeds max ICO size (256x256)"
    else .ok g

/-- An image representation fed to `drawImage`: either the resolved source
unchanged, or the intermediate blurred canvas of the smoothing pre-pass. -/
inductive ImgRep where
  | original : ImgRep
  | blurred : ℚ → ImgRep
deriving DecidableEq, Repr

/-- `getBlurredImage` (src/index.js lines 408-426): computes the blur
radius from the downscale factor (`fit.imageWidth`/`fit.imageHeight` are
the source dimensions, `fit.iw`/`fit.ih` the placed size) and blurs the
source at source resolution, or returns the source unchanged when the
radius is not positive. -/
def getBlurredImage (fit : FitG) : ImgRep :=
  if (min ((fit.imageWidth : ℚ) / (fit.iw : ℚ)) ((fit.imageHeight : ℚ) / (fit.ih : ℚ)) - 1)
      * 0.375 ≤ 0 then
    ImgRep.original
  else
    ImgRep.blurred ((min ((fit.imageWidth : ℚ) / (fit.iw : ℚ))
      ((fit.imageHeight : ℚ) / (fit.ih : ℚ)) - 1) * 0.375)

/-- One drawing operation performed on the output canvas. -/
inductive CanvasOp where
  | fillRect : String → ℤ → ℤ → ℤ → ℤ → CanvasOp
  | drawImage : ImgRep → ℤ → ℤ → ℤ → ℤ → CanvasOp
deriving DecidableEq, Repr

/-- `renderToCanvas` (src/index.js lines 449-484) as the trace of drawing
operations performed on the freshly created `fit.cw × fit.ch` canvas;
`filterOk` stands for `typeof ctx.filter !== 'undefined'`
(`getSteppedImage`, lines 434-440, returns the image unchanged). -/
def renderToCanvas (filterOk : Bool) (fit : FitG) (o : VOpts) : List CanvasOp :=
  (if truthyStr o.background then
    [CanvasOp.fillRect (o.background.getD "") 0 0 fit.cw fit.ch]
  else []) ++
  [CanvasOp.drawImage
    (if o.smoothen then
      (if filterOk then getBlurredImage fit else ImgRep.original)
    else ImgRep.original)
    fit.ix fit.iy fit.iw fit.ih]

/-- Encoded output bytes, treated as opaque. -/
abbrev Blob := String

/-- The process-wide globals `_worker` and `_workerError`
(src/index.js lines 109-110): `worker` records whether a `Worker` object
has been created and stored, `workerError` the cached bootstrap error. -/
structure WState where
  worker : Bool
  workerError : Option String
deriving DecidableEq, Repr

/-- The state before any call: both globals are `null`. -/
def initialWState : WState := ⟨false, none⟩

/-- The abstract three-state channel lifecycle of the worker manager. -/
inductive ChannelState where
  | uninitialized : ChannelState
  | ready : ChannelState
  | permanentlyFailed : ChannelState
deriving DecidableEq, Repr

/-- Abstraction of the globals into the channel lifecycle state
(`_workerError` is checked before `_worker`, as in `loadWebWorker`). -/
def channelState (s : WState) : ChannelState :=
  if s.workerError.isSome then ChannelState.permanentlyFailed
  else if s.worker then ChannelState.ready
  else ChannelState.uninitialized

/-- `loadWebWorker` (src/index.js lines 111-166).  The outcome of the
one-time bootstrap attempt (worker spawn plus sentinel round trip) is the
environment input `bootstrap`; the function returns the updated globals
and either success or the thrown error.  On bootstrap failure the
`_worker` global was already assigned (line 129) before the sentinel
promise rejected, so `worker` is `true` in both branches. -/
def loadWebWorker (s : WState) (bootstrap : Except String Unit) :
    WState × Except String Unit :=
  if s.workerError.isSome then
    (s, Except.error "Worker is not loaded")
  else if s.worker then
    (s, Except.ok ())
  else
    match bootstrap with
    | Except.ok () => (⟨true, none⟩, Except.ok ())
    | Except.error e => (⟨true, some e⟩, Except.error e)

/-- `renderToBlobWithOffscreenCanvas` (src/index.js lines 176-220): loads
the worker, then performs one correlated request/response exchange whose
outcome is the environment input `call` (`.ok blob` for a response
carrying a result; `.error e` for a response carrying an error payload, a
bitmap-snapshot failure, or a transport failure). -/
def renderToBlobWithOffscreenCanvas (s : WState) (bootstrap : Except String Unit)
    (call : Except String Blob) : WState × Except String Blob :=
  match loadWebWorker s bootstrap with
  | (s', Except.error e) => (s', Except.error e)
  | (s', Except.ok ()) => (s', call)

/-- `resizeImageToBlob` (src/index.js lines 665-687), with the drawable
already resolved to source dimensions `(W, H)`.  Environment inputs:
`offscreen` for `typeof OffscreenCanvas !== 'undefined'`, `bootstrap` and
`call` for the worker-path outcomes, and `direct` for the result of the
direct strategy (`renderToCanvas` followed by `getBlobFromCanvas`), a
deterministic function of the fit geometry and canonical options.
Returns the updated globals and the call result. -/
def resizeImageToBlob (W H : ℕ) (opts : InOpts) (s : WState)
    (offscreen : Bool) (bootstrap : Except String Unit)
    (call : Except String Blob) (direct : FitG → VOpts → Except String Blob) :
    WState × Except String Blob :=
  let o := validateOptions opts
  match validateImageFit W H o with
  | Except.error e => (s, Except.error e)
  | Except.ok fit =>
    if offscreen ∧ s.workerError.isNone then
      match renderToBlobWithOffscreenCanvas s bootstrap call with
      | (s', Except.ok b) => (s', Except.ok b)
      | (s', Except.error _) => (s', direct fit o)
    else
      (s, direct fit o)

/-! ### Helper lemmas -/

/-- `round` on `ℚ` is monotone. -/
lemma round_mono_rat {x y : ℚ} (h : x ≤ y) : round x ≤ round y := by
  rw [round_eq, round_eq]
  exact Int.floor_le_floor (by linarith)

end ResizeImage

namespace ResizeImage

/-- C1: the effective gravity mapping of the code is the opposite of the
claim.  `validateOptions` assigns the north/south parser's value to
`xGravity` and the east/west parser's value to `yGravity`, and
`validateImageFit` computes the horizontal offset `ix` from `xGravity` and
the vertical offset `iy` from `yGravity`.  Hence `"north"` biases the
horizontal offset (a 100×100 source placed on a 200×100 canvas gets
`ix = 0` instead of the centered 50, with `iy = 0` untouched) and `"west"`
biases the vertical offset (a 100×100 source on a 100×200 canvas gets
`iy = 100` instead of the centered 50). -/
theorem c1_gravity_axes_swapped :
    (validateOptions { gravity := some "north" }).xGravity = -1
    ∧ (validateOptions { gravity := some "north" }).yGravity = 0
    ∧ (validateOptions { gravity := some "west" }).xGravity = 0
    ∧ (validateOptions { gravity := some "west" }).yGravity = 1
    ∧ validateImageFit 100 100
        (validateOptions
          { width := some 200, height := some 100, fit := some "contain",
            gravity := some "north" })
        = .ok ⟨100, 100, 200, 100, 100, 100, 0, 0⟩
    ∧ validateImageFit 100 100
        (validateOptions
          { width := some 100, height := some 200, fit := some "contain",
            gravity := some "west" })
        = .ok ⟨100, 100, 100, 200, 100, 100, 0, 100⟩ := by
  refine ⟨by decide, by decide, by decide, by decide, ?_, ?_⟩ <;>
    (simp +decide [validateImageFit, fitRaw, fillZeros, fitScale, snapCanvas, noEnlargeStep,
      validateOptions, truthyStr, typeSupportsAlpha, parseNumberArg, getYGravity, getXGravity,
      jsToLower, strIncludes, charLower, hasSub, headMatch]
     norm_num [round_eq, Int.floor_eq_iff])

/-- C2: the `background` option never reaches the canonical options record
(the object literal returned by `validateOptions` has no `background` key),
so the direct render strategy never fills a background color: every trace
produced by `renderToCanvas` on validated options is free of `fillRect`
operations, for every input options object, background color included. -/
theorem c2_background_never_applied :
    (∀ opts : InOpts, (validateOptions opts).background = none)
    ∧ ∀ (filterOk : Bool) (fit : FitG) (opts : InOpts) (c : String) (x y w h : ℤ),
        CanvasOp.fillRect c x y w h ∉ renderToCanvas filterOk fit (validateOptions opts) := by
  refine ⟨fun opts => rfl, fun filterOk fit opts c x y w h => ?_⟩
  simp [renderToCanvas, validateOptions, truthyStr]

/-- C3: the normalized type does default to `"image/jpeg"`, but `alpha` is
computed from the raw `opts.type` before defaulting
(`alpha: typeSupportsAlpha(opts.type)`), so an options input with no
`type` field yields `alpha = true`, not `false` as the claim states; the
claimed value `false` is only produced when the caller passes
`"image/jpeg"` explicitly. -/
theorem c3_alpha_uses_raw_type :
    (validateOptions {}).type = "image/jpeg"
    ∧ (validateOptions {}).alpha = true
    ∧ (validateOptions { type := some "image/jpeg" }).alpha = false
    ∧ ∀ opts : InOpts, (validateOptions opts).alpha = typeSupportsAlpha opts.type := by
  exact ⟨by decide, by decide, by decide, fun opts => rfl⟩

/-- Canonical ICO-type options requesting an `n × n` canvas with the
default stretch fit (as produced by `validateOptions` for
`{type: 'image/vnd.microsoft.icon', width: n, height: n}`). -/
def icoOpts (n : ℕ) : VOpts :=
  ⟨"image/vnd.microsoft.icon", true, n, n, 1, 0, 0, "stretch", false, false, none⟩

/-- C4: for an ICO-equivalent output type and determinable source
dimensions, geometry resolution fails (with the ICO cap error) exactly
when the resolved, rounded canvas width or height exceeds 256; in
particular a resolved canvas of exactly 256×256 succeeds. -/
theorem c4_ico_size_cap (W H : ℕ) (o : VOpts) (hW : W ≠ 0) (hH : H ≠ 0)
    (hT : o.type = "image/vnd.microsoft.icon") :
    validateImageFit W H o = .error "Exceeds max ICO size (256x256)"
      ↔ 256 < (fitRaw W H o).cw ∨ 256 < (fitRaw W H o).ch := by
  unfold validateImageFit
  rw [if_neg (by simp [hW, hH])]
  by_cases h : 256 < (fitRaw W H o).cw ∨ 256 < (fitRaw W H o).ch
  · rw [if_pos ⟨hT, h⟩]
    simpa using h
  · rw [if_neg (by tauto)]
    simpa using h

/-- Witness for C4: a 100×100 source with a requested 256×256 canvas
resolves successfully to exactly 256×256, while a requested 300×300
canvas fails with the ICO cap error. -/
theorem c4_ico_size_cap_witness :
    (validateImageFit 100 100 (icoOpts 256) = .error "Exceeds max ICO size (256x256)"
      ↔ 256 < (fitRaw 100 100 (icoOpts 256)).cw ∨ 256 < (fitRaw 100 100 (icoOpts 256)).ch)
    ∧ validateImageFit 100 100 (icoOpts 256) = .ok ⟨100, 100, 256, 256, 256, 256, 0, 0⟩
    ∧ validateImageFit 100 100 (icoOpts 300) = .error "Exceeds max ICO size (256x256)" := by
  refine ⟨c4_ico_size_cap 100 100 (icoOpts 256) (by decide) (by decide) rfl, ?_, ?_⟩ <;>
    simp +decide [validateImageFit, fitRaw, fillZeros, fitScale, snapCanvas, noEnlargeStep,
      icoOpts]

/-- Helper: `noEnlargeStep` applied with the canvas size already equal to
the image size keeps them equal (it scales all four numbers uniformly or
leaves them alone). -/
lemma noEnlargeStep_eq_pre (W H : ℕ) (b : Bool) (iw ih : ℚ) :
    (noEnlargeStep W H b iw ih iw ih).2.2.1 = (noEnlargeStep W H b iw ih iw ih).1
    ∧ (noEnlargeStep W H b iw ih iw ih).2.2.2 = (noEnlargeStep W H b iw ih iw ih).2.1 := by
  unfold noEnlargeStep
  split_ifs <;> simp

/-- C5: with positive source and target dimensions, the outside/inside fit
modes snap the resolved canvas to the placed-image size, while (absent
`noEnlarge`) the contain/cover fit modes keep the canvas exactly at the
requested target size; concretely, a 200×100 source with target 100×100
resolves to canvas 100×100, image 100×50, offset (0,25) under `contain`
and to canvas 100×50, image 100×50, offset (0,0) under `inside`. -/
theorem c5_snap_outside_inside_keep_contain_cover :
    (∀ (W H : ℕ) (o : VOpts), o.width ≠ 0 → o.height ≠ 0 →
      ((o.fit = "outside" ∨ o.fit = "inside") →
        (fitRaw W H o).cw = (fitRaw W H o).iw ∧ (fitRaw W H o).ch = (fitRaw W H o).ih)
      ∧ (o.noEnlarge = false → (o.fit = "contain" ∨ o.fit = "cover") →
        (fitRaw W H o).cw = (o.width : ℤ) ∧ (fitRaw W H o).ch = (o.height : ℤ)))
    ∧ validateImageFit 200 100
        (validateOptions { width := some 100, height := some 100, fit := some "contain" })
        = .ok ⟨200, 100, 100, 100, 100, 50, 0, 25⟩
    ∧ validateImageFit 200 100
        (validateOptions { width := some 100, height := some 100, fit := some "inside" })
        = .ok ⟨200, 100, 100, 50, 100, 50, 0, 0⟩ := by
  refine ⟨?_, ?_, ?_⟩
  · intro W H o hw hh
    have hz : fillZeros W H o.width o.height o.fit = ((o.width : ℚ), (o.height : ℚ), o.fit) := by
      unfold fillZeros
      rw [if_neg (by simp [hw, hh])]
    constructor
    · intro hfit
      have hsnap : ∀ cw ch iw ih : ℚ, snapCanvas o.fit cw ch iw ih = (iw, ih) := by
        intro cw ch iw ih
        unfold snapCanvas
        rw [if_pos hfit]
      simp only [fitRaw, hz, hsnap]
      obtain ⟨h1, h2⟩ := noEnlargeStep_eq_pre W H o.noEnlarge
        (fitScale W H ((o.width : ℚ), (o.height : ℚ), o.fit).1
          ((o.width : ℚ), (o.height : ℚ), o.fit).2.1 ((o.width : ℚ), (o.height : ℚ), o.fit).2.2).1
        (fitScale W H ((o.width : ℚ), (o.height : ℚ), o.fit).1
          ((o.width : ℚ), (o.height : ℚ), o.fit).2.1 ((o.width : ℚ), (o.height : ℚ), o.fit).2.2).2
      exact ⟨congrArg round h1, congrArg round h2⟩
    · intro hne hfit
      have hsnap : ∀ cw ch iw ih : ℚ, snapCanvas o.fit cw ch iw ih = (cw, ch) := by
        intro cw ch iw ih
        unfold snapCanvas
        rcases hfit with h | h <;> rw [h] <;> rw [if_neg (by decide)]
      simp only [fitRaw, hz, hsnap, hne, noEnlargeStep, Bool.false_eq_true, if_false]
      exact ⟨round_natCast o.width, round_natCast o.height⟩
  · simp +decide [validateImageFit, fitRaw, fillZeros, fitScale, snapCanvas, noEnlargeStep,
      validateOptions, truthyStr, typeSupportsAlpha, parseNumberArg, getYGravity, getXGravity,
      jsToLower, strIncludes, charLower, hasSub, headMatch]
    norm_num [round_eq, Int.floor_eq_iff]
  · simp +decide [validateImageFit, fitRaw, fillZeros, fitScale, snapCanvas, noEnlargeStep,
      validateOptions, truthyStr, typeSupportsAlpha, parseNumberArg, getYGravity, getXGravity,
      jsToLower, strIncludes, charLower, hasSub, headMatch]
    norm_num [round_eq, Int.floor_eq_iff]

/-- Witness for C5: the general part applied to a 300×100 source with an
explicit `inside` options record, and to a 300×100 source with a `cover`
options record. -/
theorem c5_snap_outside_inside_keep_contain_cover_witness :
    ((fitRaw 300 100 ⟨"image/jpeg", false, 100, 100, 1, 0, 0, "inside", false, false, none⟩).cw
      = (fitRaw 300 100 ⟨"image/jpeg", false, 100, 100, 1, 0, 0, "inside", false, false, none⟩).iw
    ∧ (fitRaw 300 100 ⟨"image/jpeg", false, 100, 100, 1, 0, 0, "inside", false, false, none⟩).ch
      = (fitRaw 300 100 ⟨"image/jpeg", false, 100, 100, 1, 0, 0, "inside", false, false, none⟩).ih)
    ∧ ((fitRaw 300 100 ⟨"image/jpeg", false, 100, 100, 1, 0, 0, "cover", false, false, none⟩).cw
      = (100 : ℤ)
    ∧ (fitRaw 300 100 ⟨"image/jpeg", false, 100, 100, 1, 0, 0, "cover", false, false, none⟩).ch
      = (100 : ℤ)) :=
  ⟨(c5_snap_outside_inside_keep_contain_cover.1 300 100
      ⟨"image/jpeg", false, 100, 100, 1, 0, 0, "inside", false, false, none⟩
      (by decide) (by decide)).1 (Or.inr rfl),
   (c5_snap_outside_inside_keep_contain_cover.1 300 100
      ⟨"image/jpeg", false, 100, 100, 1, 0, 0, "cover", false, false, none⟩
      (by decide) (by decide)).2 rfl (Or.inr rfl)⟩

/-- C6: when a target dimension is zero the requested fit mode is
irrelevant (it is forced to stretch), and with `noEnlarge` off the missing
dimension is derived from the source aspect ratio, the placed image fills
the canvas and the offset is (0,0); when both targets are zero the source
dimensions are used unchanged as the canvas size; concretely a 50×50
source with only `height: 25` resolves to canvas 25×25, image 25×25,
offset (0,0). -/
theorem c6_zero_target_dimensions :
    (∀ (W H : ℕ) (o : VOpts) (fitStr : String), o.width = 0 ∨ o.height = 0 →
        fitRaw W H o = fitRaw W H { o with fit := fitStr })
    ∧ (∀ (W H : ℕ) (o : VOpts), o.noEnlarge = false →
        (o.width ≠ 0 → o.height = 0 →
          fitRaw W H o = ⟨W, H, (o.width : ℤ), round ((o.width : ℚ) / (W : ℚ) * (H : ℚ)),
            (o.width : ℤ), round ((o.width : ℚ) / (W : ℚ) * (H : ℚ)), 0, 0⟩)
        ∧ (o.width = 0 → o.height ≠ 0 →
          fitRaw W H o = ⟨W, H, round ((o.height : ℚ) / (H : ℚ) * (W : ℚ)), (o.height : ℤ),
            round ((o.height : ℚ) / (H : ℚ) * (W : ℚ)), (o.height : ℤ), 0, 0⟩)
        ∧ (o.width = 0 → o.height = 0 →
          fitRaw W H o = ⟨W, H, (W : ℤ), (H : ℤ), (W : ℤ), (H : ℤ), 0, 0⟩))
    ∧ validateImageFit 50 50 (validateOptions { height := some 25 })
        = .ok ⟨50, 50, 25, 25, 25, 25, 0, 0⟩ := by
  refine ⟨?_, ?_, ?_⟩
  · intro W H o fitStr h
    have hz : fillZeros W H o.width o.height o.fit = fillZeros W H o.width o.height fitStr := by
      unfold fillZeros
      rw [if_pos h, if_pos h]
    simp only [fitRaw]
    rw [hz]
  · intro W H o hne
    refine ⟨?_, ?_, ?_⟩
    · intro hw hh
      have hz : fillZeros W H o.width o.height o.fit
          = ((o.width : ℚ), (o.width : ℚ) / (W : ℚ) * (H : ℚ), "stretch") := by
        unfold fillZeros
        rw [if_pos (Or.inr hh), if_pos hw]
      simp only [fitRaw, hz]
      simp +decide [fitScale, snapCanvas, noEnlargeStep, hne, round_natCast]
    · intro hw hh
      have hz : fillZeros W H o.width o.height o.fit
          = ((o.height : ℚ) / (H : ℚ) * (W : ℚ), (o.height : ℚ), "stretch") := by
        unfold fillZeros
        rw [if_pos (Or.inl hw), if_neg (by simpa using hw), if_pos hh]
      simp only [fitRaw, hz]
      simp +decide [fitScale, snapCanvas, noEnlargeStep, hne, round_natCast]
    · intro hw hh
      have hz : fillZeros W H o.width o.height o.fit = ((W : ℚ), (H : ℚ), "stretch") := by
        unfold fillZeros
        rw [if_pos (Or.inl hw), if_neg (by simpa using hw), if_neg (by simpa using hh)]
      simp only [fitRaw, hz]
      simp +decide [fitScale, snapCanvas, noEnlargeStep, hne, round_natCast]
  · simp +decide [validateImageFit, fitRaw, fillZeros, fitScale, snapCanvas, noEnlargeStep,
      validateOptions, truthyStr, typeSupportsAlpha, parseNumberArg, getYGravity, getXGravity,
      jsToLower, strIncludes, charLower, hasSub, headMatch]

/-- Witness for C6: the derived-dimension part applied to a 50×50 source
with an options record requesting only height 25. -/
theorem c6_zero_target_dimensions_witness :
    fitRaw 50 50 ⟨"image/jpeg", false, 0, 25, 1, 0, 0, "stretch", false, false, none⟩
      = ⟨50, 50, round ((25 : ℚ) / (50 : ℚ) * (50 : ℚ)), (25 : ℤ),
        round ((25 : ℚ) / (50 : ℚ) * (50 : ℚ)), (25 : ℤ), 0, 0⟩ :=
  ((c6_zero_target_dimensions.2.1 50 50
      ⟨"image/jpeg", false, 0, 25, 1, 0, 0, "stretch", false, false, none⟩ rfl).2.1
    rfl (by decide))

/-- Helper: with nonzero source dimensions, the zero-filling stage always
produces positive (rational) canvas dimensions. -/
lemma fillZeros_pos (W H cw0 ch0 : ℕ) (fit : String) (hW : W ≠ 0) (hH : H ≠ 0) :
    0 < (fillZeros W H cw0 ch0 fit).1 ∧ 0 < (fillZeros W H cw0 ch0 fit).2.1 := by
  have hW' : (0 : ℚ) < (W : ℚ) := by exact_mod_cast Nat.pos_of_ne_zero hW
  have hH' : (0 : ℚ) < (H : ℚ) := by exact_mod_cast Nat.pos_of_ne_zero hH
  unfold fillZeros
  split_ifs with h1 h2 h3
  · have hc : (0 : ℚ) < (cw0 : ℚ) := by exact_mod_cast Nat.pos_of_ne_zero h2
    exact ⟨hc, mul_pos (div_pos hc hW') hH'⟩
  · have hc : (0 : ℚ) < (ch0 : ℚ) := by exact_mod_cast Nat.pos_of_ne_zero h3
    exact ⟨mul_pos (div_pos hc hH') hW', hc⟩
  · exact ⟨hW', hH'⟩
  · push_neg at h1
    have hc : (0 : ℚ) < (cw0 : ℚ) := by exact_mod_cast Nat.pos_of_ne_zero h1.1
    have hc' : (0 : ℚ) < (ch0 : ℚ) := by exact_mod_cast Nat.pos_of_ne_zero h1.2
    exact ⟨hc, hc'⟩

/-- Helper: with nonzero source dimensions and positive canvas dimensions,
every fit-mode branch produces a positive placed-image size. -/
lemma fitScale_pos (W H : ℕ) (cw ch : ℚ) (fit : String) (hW : W ≠ 0) (hH : H ≠ 0)
    (hcw : 0 < cw) (hch : 0 < ch) :
    0 < (fitScale W H cw ch fit).1 ∧ 0 < (fitScale W H cw ch fit).2 := by
  have hW' : (0 : ℚ) < (W : ℚ) := by exact_mod_cast Nat.pos_of_ne_zero hW
  have hH' : (0 : ℚ) < (H : ℚ) := by exact_mod_cast Nat.pos_of_ne_zero hH
  unfold fitScale
  split_ifs with h1 h2
  · have hm : 0 < max (cw / (W : ℚ)) (ch / (H : ℚ)) :=
      lt_max_iff.mpr (Or.inl (div_pos hcw hW'))
    exact ⟨mul_pos hW' hm, mul_pos hH' hm⟩
  · have hm : 0 < min (cw / (W : ℚ)) (ch / (H : ℚ)) :=
      lt_min (div_pos hcw hW') (div_pos hch hH')
    exact ⟨mul_pos hW' hm, mul_pos hH' hm⟩
  · exact ⟨hcw, hch⟩

/-- Helper: with the `noEnlarge` flag set and a positive placed-image size
coming in, the placed-image size coming out never exceeds the source
dimensions (in exact rational arithmetic). -/
lemma noEnlargeStep_le (W H : ℕ) (iw ih cw ch : ℚ) (hiw : 0 < iw) (hih : 0 < ih) :
    (noEnlargeStep W H true iw ih cw ch).1 ≤ (W : ℚ)
    ∧ (noEnlargeStep W H true iw ih cw ch).2.1 ≤ (H : ℚ) := by
  unfold noEnlargeStep
  rw [if_pos rfl]
  split_ifs with h
  · constructor
    · calc iw * min ((W : ℚ) / iw) ((H : ℚ) / ih)
          ≤ iw * ((W : ℚ) / iw) :=
            mul_le_mul_of_nonneg_left (min_le_left _ _) hiw.le
        _ = (W : ℚ) := by field_simp
    · calc ih * min ((W : ℚ) / iw) ((H : ℚ) / ih)
          ≤ ih * ((H : ℚ) / ih) :=
            mul_le_mul_of_nonneg_left (min_le_right _ _) hih.le
        _ = (H : ℚ) := by field_simp
  · push_neg at h
    constructor
    · exact (one_le_div hiw).mp (le_trans h (min_le_left _ _))
    · exact (one_le_div hih).mp (le_trans h (min_le_right _ _))

/-- C7: for every determinable source dimensions, fit mode and target
size, when `noEnlarge` is set the resolved (rounded) placed-image
dimensions never exceed the original source dimensions. -/
theorem c7_noEnlarge_never_exceeds_source (W H : ℕ) (o : VOpts) (g : FitG)
    (hW : W ≠ 0) (hH : H ≠ 0) (hne : o.noEnlarge = true)
    (hg : validateImageFit W H o = .ok g) :
    g.iw ≤ (W : ℤ) ∧ g.ih ≤ (H : ℤ) := by
  have hfit : g = fitRaw W H o := by
    simp only [validateImageFit] at hg
    rw [if_neg (by simp [hW, hH])] at hg
    split_ifs at hg
    exact (Except.ok.inj hg).symm
  obtain ⟨hcw, hch⟩ := fillZeros_pos W H o.width o.height o.fit hW hH
  obtain ⟨hiw, hih⟩ := fitScale_pos W H (fillZeros W H o.width o.height o.fit).1
    (fillZeros W H o.width o.height o.fit).2.1 (fillZeros W H o.width o.height o.fit).2.2
    hW hH hcw hch
  have key := noEnlargeStep_le W H
    (fitScale W H (fillZeros W H o.width o.height o.fit).1
      (fillZeros W H o.width o.height o.fit).2.1 (fillZeros W H o.width o.height o.fit).2.2).1
    (fitScale W H (fillZeros W H o.width o.height o.fit).1
      (fillZeros W H o.width o.height o.fit).2.1 (fillZeros W H o.width o.height o.fit).2.2).2
    (snapCanvas (fillZeros W H o.width o.height o.fit).2.2
      (fillZeros W H o.width o.height o.fit).1 (fillZeros W H o.width o.height o.fit).2.1
      (fitScale W H (fillZeros W H o.width o.height o.fit).1
        (fillZeros W H o.width o.height o.fit).2.1
        (fillZeros W H o.width o.height o.fit).2.2).1
      (fitScale W H (fillZeros W H o.width o.height o.fit).1
        (fillZeros W H o.width o.height o.fit).2.1
        (fillZeros W H o.width o.height o.fit).2.2).2).1
    (snapCanvas (fillZeros W H o.width o.height o.fit).2.2
      (fillZeros W H o.width o.height o.fit).1 (fillZeros W H o.width o.height o.fit).2.1
      (fitScale W H (fillZeros W H o.width o.height o.fit).1
        (fillZeros W H o.width o.height o.fit).2.1
        (fillZeros W H o.width o.height o.fit).2.2).1
      (fitScale W H (fillZeros W H o.width o.height o.fit).1
        (fillZeros W H o.width o.height o.fit).2.1
        (fillZeros W H o.width o.height o.fit).2.2).2).2
    hiw hih
  rw [hfit]
  simp only [fitRaw, hne]
  exact ⟨by simpa [round_natCast] using round_mono_rat key.1,
    by simpa [round_natCast] using round_mono_rat key.2⟩

/-- Witness for C7: a 50×50 source stretched to a requested 100×100 canvas
with `noEnlarge` resolves to a 50×50 placed image, within the source
bounds. -/
theorem c7_noEnlarge_never_exceeds_source_witness :
    ((⟨50, 50, 50, 50, 50, 50, 0, 0⟩ : FitG).iw ≤ (50 : ℤ))
    ∧ ((⟨50, 50, 50, 50, 50, 50, 0, 0⟩ : FitG).ih ≤ (50 : ℤ)) :=
  c7_noEnlarge_never_exceeds_source 50 50
    ⟨"image/jpeg", false, 100, 100, 1, 0, 0, "stretch", true, false, none⟩
    ⟨50, 50, 50, 50, 50, 50, 0, 0⟩ (by decide) (by decide) rfl (by
      simp +decide [validateImageFit, fitRaw, fillZeros, fitScale, snapCanvas, noEnlargeStep]
      norm_num [round_eq, Int.floor_eq_iff])

/-- C8: with the worker channel already bootstrapped successfully (the
globals are in the `Ready` configuration), a per-call failure of the
worker render strategy makes `resizeImageToBlob` return exactly what the
direct strategy alone would produce on the same input (running with the
worker path disabled, `offscreen = false`, is the direct strategy alone),
the worker error is not surfaced, and the channel state is unchanged. -/
theorem c8_worker_fallback_is_direct (W H : ℕ) (opts : InOpts) (s : WState)
    (bootstrap : Except String Unit) (e : String)
    (direct : FitG → VOpts → Except String Blob)
    (hw : s.worker = true) (herr : s.workerError = none) :
    resizeImageToBlob W H opts s true bootstrap (.error e) direct
      = resizeImageToBlob W H opts s false bootstrap (.error e) direct
    ∧ (resizeImageToBlob W H opts s true bootstrap (.error e) direct).1 = s := by
  constructor <;>
  · simp only [resizeImageToBlob]
    cases validateImageFit W H (validateOptions opts)
    · rfl
    · simp [renderToBlobWithOffscreenCanvas, loadWebWorker, hw, herr]

/-- Witness for C8: a ready channel, a failing worker call and a direct
strategy returning fixed bytes. -/
theorem c8_worker_fallback_is_direct_witness :
    resizeImageToBlob 1 1 {} ⟨true, none⟩ true (.ok ()) (.error "boom")
        (fun _ _ => .ok "bytes")
      = resizeImageToBlob 1 1 {} ⟨true, none⟩ false (.ok ()) (.error "boom")
        (fun _ _ => .ok "bytes")
    ∧ (resizeImageToBlob 1 1 {} ⟨true, none⟩ true (.ok ()) (.error "boom")
        (fun _ _ => .ok "bytes")).1 = ⟨true, none⟩ :=
  c8_worker_fallback_is_direct 1 1 {} ⟨true, none⟩ (.ok ()) "boom"
    (fun _ _ => .ok "bytes") rfl rfl

/-- C9: the worker channel only moves forward.  A ready channel is left
untouched by `loadWebWorker`; a permanently failed channel is left
untouched, always yields the cached error, and never re-attempts the
bootstrap (the result does not depend on the bootstrap outcome at all); an
uninitialized channel becomes ready on bootstrap success and permanently
failed on bootstrap failure; and a per-call render failure after a
successful bootstrap leaves the channel ready. -/
theorem c9_channel_state_forward_only :
    (∀ (s : WState) (b : Except String Unit),
      channelState s = ChannelState.ready → (loadWebWorker s b).1 = s)
    ∧ (∀ (s : WState) (b b' : Except String Unit),
      channelState s = ChannelState.permanentlyFailed →
        loadWebWorker s b = loadWebWorker s b'
        ∧ (loadWebWorker s b).1 = s
        ∧ (loadWebWorker s b).2 = .error "Worker is not loaded")
    ∧ (∀ s : WState, channelState s = ChannelState.uninitialized →
        channelState (loadWebWorker s (.ok ())).1 = ChannelState.ready
        ∧ ∀ e : String,
          channelState (loadWebWorker s (.error e)).1 = ChannelState.permanentlyFailed)
    ∧ (∀ (s : WState) (b : Except String Unit) (e : String),
      channelState s = ChannelState.ready →
        (renderToBlobWithOffscreenCanvas s b (.error e)).1 = s
        ∧ channelState (renderToBlobWithOffscreenCanvas s b (.error e)).1
          = ChannelState.ready) := by
  refine ⟨?_, ?_, ?_, ?_⟩
  · rintro ⟨w, werr⟩ b h
    cases werr
    · cases w
      · simp [channelState] at h
      · simp [loadWebWorker]
    · simp [channelState] at h
  · rintro ⟨w, werr⟩ b b' h
    cases werr
    · cases w <;> simp [channelState] at h
    · simp [loadWebWorker]
  · rintro ⟨w, werr⟩ h
    cases werr
    · cases w
      · exact ⟨by simp [loadWebWorker, channelState], fun e => by
          simp [loadWebWorker, channelState]⟩
      · simp [channelState] at h
    · simp [channelState] at h
  · rintro ⟨w, werr⟩ b e h
    cases werr
    · cases w
      · simp [channelState] at h
      · simp [renderToBlobWithOffscreenCanvas, loadWebWorker, channelState]
    · simp [channelState] at h

/-- Witness for C9: concrete channel states exercising each conjunct. -/
theorem c9_channel_state_forward_only_witness :
    (loadWebWorker ⟨true, none⟩ (.ok ())).1 = ⟨true, none⟩
    ∧ channelState (loadWebWorker ⟨false, none⟩ (.ok ())).1 = ChannelState.ready
    ∧ channelState (loadWebWorker ⟨false, none⟩ (.error "spawn failed")).1
      = ChannelState.permanentlyFailed
    ∧ loadWebWorker ⟨true, some "spawn failed"⟩ (.ok ())
      = loadWebWorker ⟨true, some "spawn failed"⟩ (.error "other")
    ∧ (renderToBlobWithOffscreenCanvas ⟨true, none⟩ (.ok ()) (.error "render failed")).1
      = ⟨true, none⟩ :=
  ⟨c9_channel_state_forward_only.1 ⟨true, none⟩ (.ok ()) rfl,
   (c9_channel_state_forward_only.2.2.1 ⟨false, none⟩ rfl).1,
   (c9_channel_state_forward_only.2.2.1 ⟨false, none⟩ rfl).2 "spawn failed",
   (c9_channel_state_forward_only.2.1 ⟨true, some "spawn failed"⟩ (.ok ())
     (.error "other") rfl).1,
   (c9_channel_state_forward_only.2.2.2 ⟨true, none⟩ (.ok ()) "render failed" rfl).1⟩

/-- Helper: when a target dimension is zero, the zero-filling stage does
not look at the requested fit string. -/
lemma fillZeros_fit_ignored (W H cw0 ch0 : ℕ) (f f' : String)
    (h : cw0 = 0 ∨ ch0 = 0) :
    fillZeros W H cw0 ch0 f = fillZeros W H cw0 ch0 f' := by
  unfold fillZeros
  rw [if_pos h, if_pos h]

/-- Helper: a fit string other than the four recognized ones makes
`fitRaw` behave exactly like `"stretch"`. -/
lemma fitRaw_unknown_eq_stretch (W H : ℕ) (o : VOpts)
    (hout : o.fit ≠ "outside") (hcov : o.fit ≠ "cover")
    (hin : o.fit ≠ "inside") (hcon : o.fit ≠ "contain") :
    fitRaw W H o = fitRaw W H { o with fit := "stretch" } := by
  by_cases hz : o.width = 0 ∨ o.height = 0
  · simp only [fitRaw]
    rw [fillZeros_fit_ignored W H o.width o.height o.fit "stretch" hz]
  · push_neg at hz
    have hzz : fillZeros W H o.width o.height o.fit
        = ((o.width : ℚ), (o.height : ℚ), o.fit) := by
      unfold fillZeros
      rw [if_neg (by simp [hz.1, hz.2])]
    have hzz' : fillZeros W H o.width o.height "stretch"
        = ((o.width : ℚ), (o.height : ℚ), "stretch") := by
      unfold fillZeros
      rw [if_neg (by simp [hz.1, hz.2])]
    have hs : fitScale W H (o.width : ℚ) (o.height : ℚ) o.fit
        = ((o.width : ℚ), (o.height : ℚ)) := by
      unfold fitScale
      rw [if_neg (by simp [hout, hcov]), if_neg (by simp [hin, hcon])]
    have hs' : fitScale W H (o.width : ℚ) (o.height : ℚ) "stretch"
        = ((o.width : ℚ), (o.height : ℚ)) := by
      unfold fitScale
      rw [if_neg (by decide), if_neg (by decide)]
    have hc : snapCanvas o.fit (o.width : ℚ) (o.height : ℚ) (o.width : ℚ) (o.height : ℚ)
        = ((o.width : ℚ), (o.height : ℚ)) := by
      unfold snapCanvas
      rw [if_neg (by simp [hout, hin])]
    have hc' : snapCanvas "stretch" (o.width : ℚ) (o.height : ℚ) (o.width : ℚ) (o.height : ℚ)
        = ((o.width : ℚ), (o.height : ℚ)) := by
      unfold snapCanvas
      rw [if_neg (by decide)]
    simp only [fitRaw, hzz, hzz', hs, hs', hc, hc']

/-- Helper: whenever the requested fit string is none of the four
recognized modes, the resolved canvas equals the resolved placed-image
size (stretch behavior: no snapping, image fills the canvas). -/
lemma fitRaw_unknown_cw_eq_iw (W H : ℕ) (o : VOpts)
    (hout : o.fit ≠ "outside") (hcov : o.fit ≠ "cover")
    (hin : o.fit ≠ "inside") (hcon : o.fit ≠ "contain") :
    (fitRaw W H o).cw = (fitRaw W H o).iw ∧ (fitRaw W H o).ch = (fitRaw W H o).ih := by
  have hznot1 : ¬((fillZeros W H o.width o.height o.fit).2.2 = "outside"
      ∨ (fillZeros W H o.width o.height o.fit).2.2 = "cover") := by
    unfold fillZeros
    split_ifs <;> simp [hout, hcov]
  have hznot2 : ¬((fillZeros W H o.width o.height o.fit).2.2 = "inside"
      ∨ (fillZeros W H o.width o.height o.fit).2.2 = "contain") := by
    unfold fillZeros
    split_ifs <;> simp [hin, hcon]
  have hznot3 : ¬((fillZeros W H o.width o.height o.fit).2.2 = "outside"
      ∨ (fillZeros W H o.width o.height o.fit).2.2 = "inside") := by
    unfold fillZeros
    split_ifs <;> simp [hout, hin]
  have hs : fitScale W H (fillZeros W H o.width o.height o.fit).1
      (fillZeros W H o.width o.height o.fit).2.1 (fillZeros W H o.width o.height o.fit).2.2
      = ((fillZeros W H o.width o.height o.fit).1,
        (fillZeros W H o.width o.height o.fit).2.1) := by
    unfold fitScale
    rw [if_neg hznot1, if_neg hznot2]
  have hc : snapCanvas (fillZeros W H o.width o.height o.fit).2.2
      (fillZeros W H o.width o.height o.fit).1 (fillZeros W H o.width o.height o.fit).2.1
      (fillZeros W H o.width o.height o.fit).1 (fillZeros W H o.width o.height o.fit).2.1
      = ((fillZeros W H o.width o.height o.fit).1,
        (fillZeros W H o.width o.height o.fit).2.1) := by
    unfold snapCanvas
    rw [if_neg hznot3]
  simp only [fitRaw, hs, hc]
  obtain ⟨h1, h2⟩ := noEnlargeStep_eq_pre W H o.noEnlarge
    (fillZeros W H o.width o.height o.fit).1 (fillZeros W H o.width o.height o.fit).2.1
  exact ⟨congrArg round h1, congrArg round h2⟩

/-- C10: a non-empty fit string is never rejected by the option
normalizer (it is passed through lower-cased), and whenever the canonical
fit string is none of "outside"/"cover"/"inside"/"contain", geometry
resolution behaves exactly as fit mode "stretch": identical resolved
geometry, with the placed-image size equal to the canvas size (independent
axis scaling, no canvas snapping). -/
theorem c10_unknown_fit_behaves_as_stretch :
    (∀ (opts : InOpts) (f : String), opts.fit = some f → f ≠ "" →
      (validateOptions opts).fit = jsToLower f)
    ∧ (∀ (W H : ℕ) (o : VOpts),
      o.fit ≠ "outside" → o.fit ≠ "cover" → o.fit ≠ "inside" → o.fit ≠ "contain" →
        validateImageFit W H o = validateImageFit W H { o with fit := "stretch" }
        ∧ (fitRaw W H o).cw = (fitRaw W H o).iw
        ∧ (fitRaw W H o).ch = (fitRaw W H o).ih) := by
  constructor
  · intro opts f hf hne
    have hlen : 0 < f.length := by
      cases f with
      | mk l =>
        cases l with
        | nil => exact absurd (by decide) hne
        | cons c cs => simp [String.length]
    simp only [validateOptions, hf]
    rw [if_pos hlen]
  · intro W H o hout hcov hin hcon
    refine ⟨?_, fitRaw_unknown_cw_eq_iw W H o hout hcov hin hcon⟩
    unfold validateImageFit
    rw [fitRaw_unknown_eq_stretch W H o hout hcov hin hcon]

/-- Witness for C10: the unknown fit string `"Fill"` is normalized to
`"fill"` and resolves exactly like `"stretch"`. -/
theorem c10_unknown_fit_behaves_as_stretch_witness :
    (validateOptions { fit := some "Fill" }).fit = jsToLower "Fill"
    ∧ validateImageFit 10 10 ⟨"image/jpeg", false, 20, 30, 1, 0, 0, "fill", false, false, none⟩
      = validateImageFit 10 10
        { (⟨"image/jpeg", false, 20, 30, 1, 0, 0, "fill", false, false, none⟩ : VOpts) with
          fit := "stretch" }
    ∧ (fitRaw 10 10 ⟨"image/jpeg", false, 20, 30, 1, 0, 0, "fill", false, false, none⟩).cw
      = (fitRaw 10 10 ⟨"image/jpeg", false, 20, 30, 1, 0, 0, "fill", false, false, none⟩).iw :=
  ⟨c10_unknown_fit_behaves_as_stretch.1 { fit := some "Fill" } "Fill" rfl (by decide),
   (c10_unknown_fit_behaves_as_stretch.2 10 10
     ⟨"image/jpeg", false, 20, 30, 1, 0, 0, "fill", false, false, none⟩
     (by decide) (by decide) (by decide) (by decide)).1,
   (c10_unknown_fit_behaves_as_stretch.2 10 10
     ⟨"image/jpeg", false, 20, 30, 1, 0, 0, "fill", false, false, none⟩
     (by decide) (by decide) (by decide) (by decide)).2.1⟩

end ResizeImage
